import Mathlib

/-!
Verification of the rate-limited authentication core of the CMS
beneficiary self-service repository.

The development shallowly embeds the two authentication entry points:

* `authenticateUser` — the beneficiary flow of
  `src/functions/auth/authenticateUser.js`, with its in-process rate-limit
  map (`rateLimitMap`), input sanitization, Medicare-ID format validation,
  Firestore lookup, case-insensitive last-name check, `isAuthenticated`
  update and base64/JSON session token.
* `authenticateProvider` — the provider flow (NPI validation, the
  store-backed rate-limit window in the `authRateLimits` collection, the
  `authFailedAttempts` counter, the `authAuditLog` audit trail, and the
  SHA-256 session token digest).

External effects (Firestore reads/writes, the audit sink, `Date.now()`,
`crypto.randomBytes`) are passed in explicitly: timestamps are `Nat`
milliseconds, stores are association lists or lookup functions, and each
fallible dependency gets an explicit success/error injection point so that
the `try`/`catch` behaviour of the source can be stated and proved.
-/

namespace CmsAuth

/-- Beneficiary-side constant `MAX_ATTEMPTS = 5` (authenticateUser.js). -/
def MAX_ATTEMPTS : Nat := 5

/-- Beneficiary-side constant aliasing 15 minutes in milliseconds
(`LOCKOUT_DURATION` in authenticateUser.js). -/
def lockoutMs : Nat := 15 * 60 * 1000

/-- Provider-side constant `RATE_LIMIT_WINDOW = 15 min` (part_003). -/
def RATE_LIMIT_WINDOW : Nat := 15 * 60 * 1000

/-- Provider-side constant `MAX_ATTEMPTS_PER_WINDOW = 5` (part_003). -/
def MAX_ATTEMPTS_PER_WINDOW : Nat := 5

/-! ### Association-list maps

Both the in-process `Map` of authenticateUser.js and the Firestore
document collections of part_003 are keyed by an identifier string; we
model both as association lists with the usual get/delete/set. -/

/-- Lookup in an association list (JS `Map.get` / Firestore `doc.get`). -/
def assocGet {α : Type} (m : List (String × α)) (k : String) : Option α :=
  (m.find? (fun kv => kv.1 == k)).map (·.2)

/-- Deletion (JS `Map.delete` / Firestore `doc.delete`). -/
def assocDelete {α : Type} (m : List (String × α)) (k : String) : List (String × α) :=
  m.filter (fun kv => kv.1 != k)

/-- Insert-or-overwrite (JS `Map.set` / Firestore `doc.set`). -/
def assocSet {α : Type} (m : List (String × α)) (k : String) (v : α) : List (String × α) :=
  assocDelete m k ++ [(k, v)]

/-! ### Beneficiary rate limiter (in-process map) -/

/-- One entry of `rateLimitMap`: `{ attempts, lastAttempt }`. -/
structure LimitData where
  attempts : Nat
  lastAttempt : Nat
deriving DecidableEq

/-- The in-process `rateLimitMap : medicareId -> LimitData`. -/
abbrev RateLimitMap := List (String × LimitData)

/-- `cleanupRateLimits()`: drop every entry with
`now - lastAttempt > LOCKOUT_DURATION` (kept iff `now ≤ lastAttempt + 15min`;
for `now < lastAttempt` the JS difference is negative and the entry is kept,
which the `≤` encoding reproduces). -/
def cleanupRateLimits (now : Nat) (m : RateLimitMap) : RateLimitMap :=
  m.filter (fun kv => now ≤ kv.2.lastAttempt + lockoutMs)

/-- `isRateLimited(medicareId)`. Runs the lazy cleanup, then checks the
entry; returns the decision together with the updated map (the JS function
mutates the shared map). -/
def isRateLimited (now : Nat) (m : RateLimitMap) (medicareId : String) :
    Bool × RateLimitMap :=
  let m1 := cleanupRateLimits now m
  match assocGet m1 medicareId with
  | none => (false, m1)
  | some limitData =>
    if limitData.lastAttempt + lockoutMs < now then
      (false, assocDelete m1 medicareId)
    else
      (decide (MAX_ATTEMPTS ≤ limitData.attempts), m1)

/-- `recordAttempt(medicareId, success)`: on success delete the entry, on
failure increment `attempts` (default `{attempts: 0, lastAttempt: now}`)
and stamp `lastAttempt = now`. -/
def recordAttempt (now : Nat) (m : RateLimitMap) (medicareId : String)
    (success : Bool) : RateLimitMap :=
  let limitData := (assocGet m medicareId).getD ⟨0, now⟩
  if success then assocDelete m medicareId
  else assocSet m medicareId ⟨limitData.attempts + 1, now⟩

/-! ### Input validation and sanitization -/

/-- ASCII decimal digit test (`\d` on the relevant inputs). -/
def isDigitChar (c : Char) : Bool := 48 ≤ c.toNat && c.toNat ≤ 57

/-- Whitespace for `trim` (space and the ASCII control whitespace). -/
def isSpaceChar (c : Char) : Bool := c.toNat = 32 || (9 ≤ c.toNat && c.toNat ≤ 13)

/-- JS `trim()`: strip whitespace from both ends (over the character list,
so that concrete runs reduce inside the kernel). -/
def jsTrim (s : String) : String :=
  (((s.toList.dropWhile isSpaceChar).reverse.dropWhile isSpaceChar).reverse).asString

/-- JS `toLowerCase()` on the ASCII range the data model uses. -/
def charLower (c : Char) : Char :=
  if 65 ≤ c.toNat ∧ c.toNat ≤ 90 then Char.ofNat (c.toNat + 32) else c

/-- Case folding of a whole string. -/
def jsToLower (s : String) : String := (s.toList.map charLower).asString

/-- `sanitizeInput`: trim, then strip the characters of the class
`[<>'"\x60;()]` (codes 60 62 39 34 96 59 40 41).  Non-string / missing
inputs (which the JS maps to `''`) are modelled by the empty string. -/
def sanitizeInput (input : String) : String :=
  ((jsTrim input).toList.filter
    (fun c => !([60, 62, 39, 34, 96, 59, 40, 41].contains c.toNat))).asString

/-- The regex `^\d{3}-\d{2}-\d{4}$` as a predicate on the character list. -/
def medicareIdPattern : List Char → Bool
  | [a, b, c, '-', d, e, '-', f, g, h, i] =>
    isDigitChar a && isDigitChar b && isDigitChar c &&
    isDigitChar d && isDigitChar e &&
    isDigitChar f && isDigitChar g && isDigitChar h && isDigitChar i
  | _ => false

/-- `validateMedicareId`: falsy input fails; otherwise the trimmed string
must match `^\d{3}-\d{2}-\d{4}$`. -/
def validateMedicareId (medicareId : String) : Bool :=
  if medicareId = "" then false
  else medicareIdPattern (jsTrim medicareId).toList

/-! ### Beneficiary records, session tokens, results -/

/-- A document of the `beneficiaries` collection (the fields the flow
reads). -/
structure Beneficiary where
  medicareId : String
  firstName : String
  lastName : String
  coverageType : String
deriving DecidableEq

/-- The payload of the beneficiary session token.  The source serializes
exactly this record as JSON and then base64-encodes it; both steps are an
injective transport, so the embedding keeps the structured payload (its
decoding is the identity). -/
structure TokenData where
  medicareId : String
  firstName : String
  timestamp : Nat
  expiresAt : Nat
deriving DecidableEq

/-- `generateSessionToken(beneficiary)` at time `now`:
`expiresAt = now + 60*60*1000` (1 hour). -/
def generateSessionToken (b : Beneficiary) (now : Nat) : TokenData :=
  { medicareId := b.medicareId
    firstName := b.firstName
    timestamp := now
    expiresAt := now + 60 * 60 * 1000 }

/-- Result of a record-store lookup, with an explicit `error` constructor
for a thrown Firestore exception. -/
inductive StoreResult (α : Type) where
  | error : StoreResult α
  | notFound : StoreResult α
  | found : α → StoreResult α

/-- The stable error codes of the beneficiary flow. -/
inductive AuthError where
  | MISSING_CREDENTIALS
  | INVALID_FORMAT
  | RATE_LIMIT_EXCEEDED
  | INVALID_CREDENTIALS
  | INTERNAL_ERROR
deriving DecidableEq

/-- The profile subset returned on success. -/
structure BenProfile where
  medicareId : String
  firstName : String
  lastName : String
  coverageType : String
deriving DecidableEq

/-- The object `authenticateUser` resolves with. -/
structure AuthResult where
  success : Bool
  error : Option AuthError
  message : String
  sessionToken : Option TokenData
  beneficiary : Option BenProfile
deriving DecidableEq

/-- One document appended to an audit collection
(`authAuditLog` in part_003: identifier truncated to 10 chars, outcome,
details). -/
structure AuditRecord where
  npiNumber : String
  success : Bool
  details : String
deriving DecidableEq

/-- Everything observable about one `authenticateUser` call: the returned
result, the rate-limit map afterwards, whether the `beneficiaries`
collection was queried, and the audit records appended (authenticateUser.js
contains no audit-collection write — only `console` logging — so every
branch contributes `[]`). -/
structure BenOutcome where
  result : AuthResult
  rlMap : RateLimitMap
  storeQueried : Bool
  auditAppends : List AuditRecord
deriving DecidableEq

/-- Shorthand for the failure results of the beneficiary flow. -/
def benFail (e : AuthError) (msg : String) : AuthResult :=
  { success := false, error := some e, message := msg
    sessionToken := none, beneficiary := none }

/-- `authenticateUser(medicareId, lastName)`.

Parameters model the externals: `store` is the `beneficiaries` query by
`medicareId` (with `.error` for a thrown lookup), `updateOk` says whether
the `isAuthenticated`/`lastLoginDate` update succeeds (it is awaited inside
the same `try`, so its failure falls through to the `catch`), `now` is
`Date.now()`, and `m` the current `rateLimitMap`.  Missing / non-string
arguments are modelled by `""` (the same falsy branch). -/
def authenticateUser (store : String → StoreResult Beneficiary)
    (updateOk : Bool) (now : Nat) (m : RateLimitMap)
    (medicareId lastName : String) : BenOutcome :=
  if medicareId = "" ∨ lastName = "" then
    { result := benFail .MISSING_CREDENTIALS "Medicare ID and last name are required"
      rlMap := m, storeQueried := false, auditAppends := [] }
  else
    let mid := sanitizeInput medicareId
    let ln := sanitizeInput lastName
    if !validateMedicareId mid then
      { result := benFail .INVALID_FORMAT
          "Invalid Medicare ID format. Expected format: XXX-XX-XXXX"
        rlMap := m, storeQueried := false, auditAppends := [] }
    else
      let lim := isRateLimited now m mid
      if lim.1 then
        { result := benFail .RATE_LIMIT_EXCEEDED
            "Too many failed attempts. Please try again in 15 minutes."
          rlMap := lim.2, storeQueried := false, auditAppends := [] }
      else
        match store mid with
        | .error =>
          { result := benFail .INTERNAL_ERROR
              "An error occurred during authentication. Please try again."
            rlMap := lim.2, storeQueried := true, auditAppends := [] }
        | .notFound =>
          { result := benFail .INVALID_CREDENTIALS "Invalid Medicare ID or last name"
            rlMap := recordAttempt now lim.2 mid false
            storeQueried := true, auditAppends := [] }
        | .found b =>
          if jsToLower b.lastName ≠ jsToLower ln then
            { result := benFail .INVALID_CREDENTIALS "Invalid Medicare ID or last name"
              rlMap := recordAttempt now lim.2 mid false
              storeQueried := true, auditAppends := [] }
          else
            let m2 := recordAttempt now lim.2 mid true
            if !updateOk then
              { result := benFail .INTERNAL_ERROR
                  "An error occurred during authentication. Please try again."
                rlMap := m2, storeQueried := true, auditAppends := [] }
            else
              { result :=
                  { success := true, error := none, message := ""
                    sessionToken := some (generateSessionToken b now)
                    beneficiary := some ⟨b.medicareId, b.firstName, b.lastName, b.coverageType⟩ }
                rlMap := m2, storeQueried := true, auditAppends := [] }

/-! ### SHA-256

The provider flow's `generateSessionToken` hashes its payload with
`crypto.createHash('sha256')...digest('hex')`; the digest is embedded as a
complete executable SHA-256 over `Nat` words (masked to 32 bits). -/

/-- Truncation to a 32-bit word. -/
def w32 (n : Nat) : Nat := n % 4294967296

/-- 32-bit rotate right. -/
def rotr32 (x n : Nat) : Nat := (x >>> n) ||| w32 (x <<< (32 - n))

/-- SHA-256 `Σ0`. -/
def shaBigSigma0 (x : Nat) : Nat := rotr32 x 2 ^^^ rotr32 x 13 ^^^ rotr32 x 22

/-- SHA-256 `Σ1`. -/
def shaBigSigma1 (x : Nat) : Nat := rotr32 x 6 ^^^ rotr32 x 11 ^^^ rotr32 x 25

/-- SHA-256 `σ0`. -/
def shaSmallSigma0 (x : Nat) : Nat := rotr32 x 7 ^^^ rotr32 x 18 ^^^ (x >>> 3)

/-- SHA-256 `σ1`. -/
def shaSmallSigma1 (x : Nat) : Nat := rotr32 x 17 ^^^ rotr32 x 19 ^^^ (x >>> 10)

/-- SHA-256 `Ch` (bitwise not taken against the 32-bit mask). -/
def shaCh (x y z : Nat) : Nat := (x &&& y) ^^^ ((x ^^^ 4294967295) &&& z)

/-- SHA-256 `Maj`. -/
def shaMaj (x y z : Nat) : Nat := (x &&& y) ^^^ (x &&& z) ^^^ (y &&& z)

/-- The 64 SHA-256 round constants (FIPS 180-4, written in decimal). -/
def shaK : Array Nat := #[
  1116352408, 1899447441, 3049323471, 3921009573, 961987163, 1508970993,
  2453635748, 2870763221, 3624381080, 310598401, 607225278, 1426881987,
  1925078388, 2162078206, 2614888103, 3248222580, 3835390401, 4022224774,
  264347078, 604807628, 770255983, 1249150122, 1555081692, 1996064986,
  2554220882, 2821834349, 2952996808, 3210313671, 3336571891, 3584528711,
  113926993, 338241895, 666307205, 773529912, 1294757372, 1396182291,
  1695183700, 1986661051, 2177026350, 2456956037, 2730485921, 2820302411,
  3259730800, 3345764771, 3516065817, 3600352804, 4094571909, 275423344,
  430227734, 506948616, 659060556, 883997877, 958139571, 1322822218,
  1537002063, 1747873779, 1955562222, 2024104815, 2227730452, 2361852424,
  2428436474, 2756734187, 3204031479, 3329325298]

/-- The SHA-256 initial hash value (FIPS 180-4, written in decimal). -/
def shaH0 : Array Nat := #[
  1779033703, 3144134277, 1013904242, 2773480762,
  1359893119, 2600822924, 528734635, 1541459225]

/-- Big-endian byte expansion of a value into `n` bytes. -/
def bytesBE (n v : Nat) : List Nat :=
  (List.range n).map (fun i => (v >>> (8 * (n - 1 - i))) % 256)

/-- SHA-256 padding of a byte list: `0x80`, zeros to 56 mod 64, and the
64-bit big-endian bit length. -/
def sha256pad (msg : List Nat) : List Nat :=
  let L := msg.length
  let k := (64 + 55 - L % 64) % 64
  msg ++ [128] ++ List.replicate k 0 ++ bytesBE 8 (L * 8)

/-- Split a byte list into 64-byte chunks (fuelled by the list length). -/
def toChunksAux : Nat → List Nat → List (List Nat)
  | 0, _ => []
  | _, [] => []
  | fuel + 1, l => l.take 64 :: toChunksAux fuel (l.drop 64)

/-- Split a padded byte list into 64-byte chunks. -/
def toChunks (l : List Nat) : List (List Nat) := toChunksAux l.length l

/-- Group bytes into big-endian 32-bit words. -/
def wordsOfBytes : List Nat → List Nat
  | a :: b :: c :: d :: rest =>
    (((a * 256 + b) * 256 + c) * 256 + d) :: wordsOfBytes rest
  | _ => []

/-- Extend the 16 block words to the 64-entry message schedule. -/
def shaSchedule (block : List Nat) : Array Nat :=
  (List.range 48).foldl
    (fun arr _ =>
      let i := arr.size
      arr.push (w32 (arr.getD (i - 16) 0 + shaSmallSigma0 (arr.getD (i - 15) 0)
        + arr.getD (i - 7) 0 + shaSmallSigma1 (arr.getD (i - 2) 0))))
    (wordsOfBytes block).toArray

/-- The eight working variables of the compression loop. -/
structure Sha8 where
  a : Nat
  b : Nat
  c : Nat
  d : Nat
  e : Nat
  f : Nat
  g : Nat
  h : Nat

/-- One round of the compression loop. -/
def shaCompressStep (W : Array Nat) (s : Sha8) (i : Nat) : Sha8 :=
  let t1 := w32 (s.h + shaBigSigma1 s.e + shaCh s.e s.f s.g + shaK.getD i 0 + W.getD i 0)
  let t2 := w32 (shaBigSigma0 s.a + shaMaj s.a s.b s.c)
  ⟨w32 (t1 + t2), s.a, s.b, s.c, w32 (s.d + t1), s.e, s.f, s.g⟩

/-- Process one 64-byte block against the running hash value. -/
def shaProcessBlock (H : Array Nat) (block : List Nat) : Array Nat :=
  let W := shaSchedule block
  let s0 : Sha8 := ⟨H.getD 0 0, H.getD 1 0, H.getD 2 0, H.getD 3 0,
                    H.getD 4 0, H.getD 5 0, H.getD 6 0, H.getD 7 0⟩
  let s := (List.range 64).foldl (shaCompressStep W) s0
  #[w32 (H.getD 0 0 + s.a), w32 (H.getD 1 0 + s.b), w32 (H.getD 2 0 + s.c),
    w32 (H.getD 3 0 + s.d), w32 (H.getD 4 0 + s.e), w32 (H.getD 5 0 + s.f),
    w32 (H.getD 6 0 + s.g), w32 (H.getD 7 0 + s.h)]

/-- SHA-256 of a byte list, as eight 32-bit words. -/
def sha256words (msg : List Nat) : Array Nat :=
  (toChunks (sha256pad msg)).foldl shaProcessBlock shaH0

/-- Lower-case hex digit. -/
def hexDigitChar (n : Nat) : Char := Char.ofNat (if n < 10 then 48 + n else 87 + n)

/-- A 32-bit word as eight hex digits. -/
def word32ToHex (v : Nat) : String :=
  ((List.range 8).map (fun i => hexDigitChar ((v >>> (4 * (7 - i))) % 16))).asString

/-- `crypto.createHash('sha256').update(s).digest('hex')` for a UTF-8
string. -/
def sha256hex (s : String) : String :=
  String.join ((sha256words (s.toUTF8.toList.map (fun b => b.toNat))).toList.map word32ToHex)

/-! ### Provider session tokens -/

/-- The string hashed by the provider `generateSessionToken`:
`` `${npiNumber}-${timestamp}-${randomBytes}` ``. -/
def providerTokenPayload (npiNumber : String) (timestamp : Nat)
    (randomBytes : String) : String :=
  npiNumber ++ "-" ++ toString timestamp ++ "-" ++ randomBytes

/-- The provider `generateSessionToken(npiNumber)`: the SHA-256 hex digest
of the payload built from the NPI, `Date.now()` and 16 random bytes in hex
(the randomness is passed in explicitly). -/
def providerGenerateSessionToken (npiNumber : String) (timestamp : Nat)
    (randomBytes : String) : String :=
  sha256hex (providerTokenPayload npiNumber timestamp randomBytes)

/-! ### Provider flow (part_003) -/

/-- One document of the `authRateLimits` collection. -/
structure RateDoc where
  attempts : Nat
  windowStart : Nat
  lastAttempt : Nat
deriving DecidableEq

/-- A document of the `providers` collection (the fields the flow reads;
the nested `address` is flattened to the two fields used). -/
structure ProviderRec where
  npiNumber : String
  clinicName : String
  contactPerson : String
  specialty : String
  city : String
  state : String
  enrollmentDate : String
  status : String
deriving DecidableEq

/-- The sanitized provider information returned on success. -/
structure ProviderAuthData where
  npiNumber : String
  clinicName : String
  contactPerson : String
  specialty : String
  city : String
  state : String
  enrollmentDate : String
  authenticated : Bool
  sessionToken : String
deriving DecidableEq

/-- `createResponse(success, message, data, statusCode)` (the ISO timestamp
field carries no information relevant to any claim and is elided). -/
structure ProvResponse where
  success : Bool
  message : String
  data : Option ProviderAuthData
  statusCode : Nat
deriving DecidableEq

/-- The Firestore state the provider flow touches. -/
structure ProvState where
  rateLimits : List (String × RateDoc)
  failedAttempts : List (String × Nat)
  auditLog : List AuditRecord
deriving DecidableEq

/-- Everything observable about one `authenticateProvider` call, including
whether the `providers` collection was queried. -/
structure ProvOutcome where
  resp : ProvResponse
  st : ProvState
  providerQueried : Bool
deriving DecidableEq

/-- `npiNumber.replace(/\D/g, '')`. -/
def npiClean (s : String) : String := (s.toList.filter isDigitChar).asString

/-- `checkRateLimit(npiNumber)` against the `authRateLimits` collection.
`ok` injects the store fault: the whole body sits in a `try` whose `catch`
returns `{allowed: true}` (fail open) — modelled as no state change.
Returns `((allowed, waitTime), new collection)`.  `windowElapsed` is `Int`
exactly as the JS subtraction of timestamps. -/
def checkRateLimit (ok : Bool) (now : Nat) (rl : List (String × RateDoc))
    (npiNumber : String) : (Bool × Int) × List (String × RateDoc) :=
  if !ok then ((true, 0), rl)
  else
    match assocGet rl npiNumber with
    | none => ((true, 0), assocSet rl npiNumber ⟨1, now, now⟩)
    | some d =>
      let windowElapsed : Int := (now : Int) - (d.windowStart : Int)
      if windowElapsed > (RATE_LIMIT_WINDOW : Int) then
        ((true, 0), assocSet rl npiNumber ⟨1, now, now⟩)
      else if MAX_ATTEMPTS_PER_WINDOW ≤ d.attempts then
        ((false, (RATE_LIMIT_WINDOW : Int) - windowElapsed), rl)
      else
        ((true, 0), assocSet rl npiNumber ⟨d.attempts + 1, d.windowStart, now⟩)

/-- `incrementFailedAttempts` on the `authFailedAttempts` collection
(merge-set with a counter increment; its own errors are swallowed —
`ok = false` leaves the collection unchanged). -/
def incrementFailedAttempts (ok : Bool) (fa : List (String × Nat))
    (npiNumber : String) : List (String × Nat) :=
  if ok then assocSet fa npiNumber ((assocGet fa npiNumber).getD 0 + 1) else fa

/-- `resetFailedAttempts`: delete the `authFailedAttempts` document (errors
swallowed). -/
def resetFailedAttempts (ok : Bool) (fa : List (String × Nat))
    (npiNumber : String) : List (String × Nat) :=
  if ok then assocDelete fa npiNumber else fa

/-- `logAuthAttempt(npiNumber, success, details)`: append one record to
`authAuditLog`, truncating the identifier to 10 characters; its own errors
are swallowed (`ok = false` appends nothing). -/
def logAuthAttempt (ok : Bool) (log : List AuditRecord) (npiNumber : String)
    (success : Bool) (details : String) : List AuditRecord :=
  if ok then log ++ [⟨(npiNumber.toList.take 10).asString, success, details⟩]
  else log

/-- The rate-limit rejection message with `Math.ceil(waitTime / 60000)`
minutes (the produced `waitTime` is nonnegative, so the ceiling is taken
over `Nat`). -/
def providerRateLimitMessage (waitTime : Int) : String :=
  "Too many authentication attempts. Please try again in "
    ++ toString ((waitTime.toNat + 59999) / 60000) ++ " minutes"

/-- `authenticateProvider(npiNumber)`.

Externals: `rlOk` — the `authRateLimits` store is reachable inside
`checkRateLimit`; `faOk` — ditto for `authFailedAttempts`; `auditOk` —
ditto for the `authAuditLog` sink; `pq` — the `providers` query by NPI
(`.error` for a thrown Firestore lookup, which falls to the outer `catch`);
`now` — `Date.now()`; `rand` — the hex random bytes of the token.  A
missing / non-string argument is modelled by `""` (that branch returns
before any logging). -/
def authenticateProvider (rlOk faOk auditOk : Bool)
    (pq : String → StoreResult ProviderRec) (now : Nat) (rand : String)
    (st : ProvState) (npiNumber : String) : ProvOutcome :=
  if npiNumber = "" then
    ⟨⟨false, "Invalid NPI format", none, 400⟩, st, false⟩
  else
    let cleanNpi := npiClean npiNumber
    if cleanNpi.length ≠ 10 then
      ⟨⟨false, "NPI must be exactly 10 digits", none, 400⟩,
       { st with auditLog := logAuthAttempt auditOk st.auditLog cleanNpi false "Invalid NPI format" },
       false⟩
    else
      let rlRes := checkRateLimit rlOk now st.rateLimits cleanNpi
      let st1 : ProvState := { st with rateLimits := rlRes.2 }
      if !rlRes.1.1 then
        ⟨⟨false, providerRateLimitMessage rlRes.1.2, none, 429⟩,
         { st1 with auditLog := logAuthAttempt auditOk st1.auditLog cleanNpi false "Rate limit exceeded" },
         false⟩
      else
        match pq cleanNpi with
        | .error =>
          -- the outer catch logs `System error: ${error.message}` against the
          -- ORIGINAL argument (not cleanNpi); the interpolated message text is
          -- elided, the identifier and flag are kept
          ⟨⟨false, "Authentication service temporarily unavailable", none, 500⟩,
           { st1 with auditLog := logAuthAttempt auditOk st1.auditLog npiNumber false "System error" },
           true⟩
        | .notFound =>
          let st2 : ProvState :=
            { st1 with failedAttempts := incrementFailedAttempts faOk st1.failedAttempts cleanNpi }
          ⟨⟨false, "Provider not found. Please verify your NPI number.", none, 404⟩,
           { st2 with auditLog := logAuthAttempt auditOk st2.auditLog cleanNpi false "NPI not found" },
           true⟩
        | .found p =>
          if p.status ≠ "Active" then
            ⟨⟨false, "Provider account is not active. Please contact CMS support.", none, 403⟩,
             { st1 with auditLog := logAuthAttempt auditOk st1.auditLog cleanNpi false ("Provider status: " ++ p.status) },
             true⟩
          else
            let st2 : ProvState :=
              { st1 with failedAttempts := resetFailedAttempts faOk st1.failedAttempts cleanNpi }
            ⟨⟨true, "Authentication successful",
              some ⟨p.npiNumber, p.clinicName, p.contactPerson, p.specialty,
                    p.city, p.state, p.enrollmentDate, true,
                    providerGenerateSessionToken cleanNpi now rand⟩, 200⟩,
             { st2 with auditLog := logAuthAttempt auditOk st2.auditLog cleanNpi true "Authentication successful" },
             true⟩

/-! ### Concrete fixtures for witnesses and counterexamples -/

/-- A demo document of the `beneficiaries` collection. -/
def demoBeneficiary : Beneficiary :=
  ⟨"123-45-6789", "Jane", "Doe", "Medicare Part A"⟩

/-- A record store holding exactly `demoBeneficiary`. -/
def demoStore : String → StoreResult Beneficiary := fun id =>
  if id = "123-45-6789" then .found demoBeneficiary else .notFound

/-- A beneficiary record store whose lookups throw. -/
def benStoreDown : String → StoreResult Beneficiary := fun _ => .error

/-- A demo active provider document. -/
def activeProvider : ProviderRec :=
  ⟨"1234567890", "Sunrise Clinic", "Dr. Adams", "Cardiology",
   "Austin", "TX", "2020-01-01", "Active"⟩

/-- The same provider with a non-`Active` status. -/
def suspendedProvider : ProviderRec := { activeProvider with status := "Suspended" }

/-- A `providers` collection holding exactly `activeProvider`. -/
def pqActive : String → StoreResult ProviderRec := fun id =>
  if id = "1234567890" then .found activeProvider else .notFound

/-- A `providers` collection holding exactly `suspendedProvider`. -/
def pqSuspended : String → StoreResult ProviderRec := fun id =>
  if id = "1234567890" then .found suspendedProvider else .notFound

/-- An empty `providers` collection. -/
def pqNotFound : String → StoreResult ProviderRec := fun _ => .notFound

/-- A `providers` collection whose lookups throw. -/
def pqDown : String → StoreResult ProviderRec := fun _ => .error

/-- Empty provider-side Firestore state. -/
def emptyProvState : ProvState := ⟨[], [], []⟩

/-- An empty `beneficiaries` collection. -/
def benStoreEmpty : String → StoreResult Beneficiary := fun _ => .notFound

/-- The `rateLimitMap` produced by five failed beneficiary attempts at
times 0, 1, 2, 3 and 840000 ms: the window was opened (first failure) at
time 0, holds `attempts = 5`, and its `lastAttempt` is 840000. -/
def benWindowSpread : RateLimitMap :=
  recordAttempt 840000 (recordAttempt 3 (recordAttempt 2 (recordAttempt 1
    (recordAttempt 0 [] "123-45-6789" false) "123-45-6789" false)
    "123-45-6789" false) "123-45-6789" false) "123-45-6789" false

/-- Provider state with an open rate window for `1234567890`
(3 attempts, window started at 0) and a failed-attempts counter of 2. -/
def provSt3 : ProvState :=
  ⟨[("1234567890", ⟨3, 0, 0⟩)], [("1234567890", 2)], []⟩

/-- Provider state whose rate window for `1234567890` is saturated
(5 attempts, window started at 0). -/
def provSt5 : ProvState := ⟨[("1234567890", ⟨5, 0, 100⟩)], [], []⟩

/-! ### Helper lemmas on association lists and the limiters -/

/-- No uniqueness of keys is assumed by the operations themselves, but the
JS `Map` and Firestore collections have unique keys; invariants that need
it take this hypothesis. -/
def keysNodup {α : Type} (m : List (String × α)) : Prop :=
  (m.map Prod.fst).Nodup

instance {α : Type} (m : List (String × α)) : Decidable (keysNodup m) := by
  unfold keysNodup; infer_instance

theorem find?_filter_ne {α : Type} (m : List (String × α)) (k : String) :
    (m.filter (fun kv => kv.1 != k)).find? (fun kv => kv.1 == k) = none := by
  induction m with
  | nil => rfl
  | cons kv t ih =>
    simp only [List.filter_cons]
    by_cases h : kv.1 = k
    · simp [h, ih]
    · simp [h, List.find?_cons, ih]

theorem assocGet_assocDelete {α : Type} (m : List (String × α)) (k : String) :
    assocGet (assocDelete m k) k = none := by
  unfold assocGet assocDelete
  rw [find?_filter_ne]
  rfl

theorem assocGet_assocSet {α : Type} (m : List (String × α)) (k : String) (v : α) :
    assocGet (assocSet m k v) k = some v := by
  unfold assocGet assocSet assocDelete
  rw [List.find?_append, find?_filter_ne]
  simp [List.find?]

theorem mem_assocSet {α : Type} {kv : String × α} {m : List (String × α)}
    {k : String} {v : α} (h : kv ∈ assocSet m k v) : kv ∈ m ∨ kv = (k, v) := by
  unfold assocSet assocDelete at h
  rcases List.mem_append.1 h with h | h
  · exact .inl (List.mem_of_mem_filter h)
  · simp only [List.mem_singleton] at h
    exact .inr h

theorem find?_filter_none_of_all_ne {α : Type} {t : List (String × α)}
    {k : String} (h : ∀ kv ∈ t, kv.1 ≠ k) (q : String × α → Bool) :
    (t.filter q).find? (fun kv => kv.1 == k) = none := by
  apply List.find?_eq_none.2
  intro kv hkv
  simp [h kv (List.mem_of_mem_filter hkv)]

/-- With unique keys, a stale entry is purged by the lazy cleanup. -/
theorem assocGet_cleanup_stale {now : Nat} {m : RateLimitMap} {id : String}
    {ld : LimitData} (hnd : keysNodup m) (hget : assocGet m id = some ld)
    (hstale : ld.lastAttempt + lockoutMs < now) :
    assocGet (cleanupRateLimits now m) id = none := by
  induction m with
  | nil => simp [assocGet] at hget
  | cons kv t ih =>
    unfold keysNodup at hnd
    simp only [List.map_cons, List.nodup_cons] at hnd
    by_cases h : kv.1 = id
    · have hv : kv.2 = ld := by
        unfold assocGet at hget
        rw [List.find?_cons_of_pos _ (by simp [h])] at hget
        simpa using hget
      have hdrop : ¬ (now ≤ kv.2.lastAttempt + lockoutMs) := by
        rw [hv]; omega
      unfold cleanupRateLimits
      rw [List.filter_cons, if_neg (by simpa using hdrop)]
      unfold assocGet
      rw [find?_filter_none_of_all_ne
        (fun kv' hkv' heq =>
          hnd.1 (by rw [h, ← heq]; exact List.mem_map_of_mem Prod.fst hkv')) _]
      rfl
    · have hget' : assocGet t id = some ld := by
        unfold assocGet at hget ⊢
        rw [List.find?_cons_of_neg _ (by simp [h])] at hget
        exact hget
      have htail := ih hnd.2 hget'
      unfold cleanupRateLimits at htail ⊢
      rw [List.filter_cons]
      by_cases hk : now ≤ kv.2.lastAttempt + lockoutMs
      · rw [if_pos (by simpa using hk)]
        unfold assocGet at htail ⊢
        rw [List.find?_cons_of_neg _ (by simp [h])]
        exact htail
      · rw [if_neg (by simpa using hk)]
        exact htail

/-- The invariant of the in-process limiter: no entry counts past
`MAX_ATTEMPTS`. -/
def benBounded (m : RateLimitMap) : Prop :=
  ∀ kv ∈ m, kv.2.attempts ≤ MAX_ATTEMPTS

instance (m : RateLimitMap) : Decidable (benBounded m) := by
  unfold benBounded; infer_instance

/-- The invariant of the store-backed limiter: no `authRateLimits` document
counts past `MAX_ATTEMPTS_PER_WINDOW`. -/
def provBounded (rl : List (String × RateDoc)) : Prop :=
  ∀ kv ∈ rl, kv.2.attempts ≤ MAX_ATTEMPTS_PER_WINDOW

instance (rl : List (String × RateDoc)) : Decidable (provBounded rl) := by
  unfold provBounded; infer_instance

theorem benBounded_filter {m : RateLimitMap} (h : benBounded m)
    (p : String × LimitData → Bool) : benBounded (m.filter p) :=
  fun kv hkv => h kv (List.mem_of_mem_filter hkv)

theorem benBounded_isRateLimited {m : RateLimitMap} (h : benBounded m)
    (now : Nat) (id : String) : benBounded (isRateLimited now m id).2 := by
  unfold isRateLimited
  have hclean : benBounded (cleanupRateLimits now m) := benBounded_filter h _
  cases hg : assocGet (cleanupRateLimits now m) id with
  | none => simpa [hg] using hclean
  | some ld =>
    simp only [hg]
    split
    · exact benBounded_filter hclean _
    · exact hclean

/-- When the rate check passes, the entry the subsequent `recordAttempt`
will increment sits at most at `MAX_ATTEMPTS - 1`. -/
theorem isRateLimited_false_bound {now : Nat} {m : RateLimitMap} {id : String}
    (h : (isRateLimited now m id).1 = false) :
    ((assocGet (isRateLimited now m id).2 id).getD ⟨0, now⟩).attempts + 1
      ≤ MAX_ATTEMPTS := by
  unfold isRateLimited at *
  cases hg : assocGet (cleanupRateLimits now m) id with
  | none =>
    simp only [hg, Option.getD_none]
    decide
  | some ld =>
    simp only [hg] at h ⊢
    by_cases hs : ld.lastAttempt + lockoutMs < now
    · rw [if_pos hs]
      simp only [assocGet_assocDelete, Option.getD_none]
      decide
    · rw [if_neg hs] at h ⊢
      simp only [decide_eq_false_iff_not, not_le] at h
      simp only [hg, Option.getD_some]
      omega

theorem benBounded_record_false {m : RateLimitMap} (h : benBounded m)
    (now : Nat) (id : String) (hlim : (isRateLimited now m id).1 = false) :
    benBounded (recordAttempt now (isRateLimited now m id).2 id false) := by
  unfold recordAttempt
  simp only [if_neg (by simp : ¬ false = true), Bool.false_eq_true, if_false]
  intro kv hkv
  rcases mem_assocSet hkv with hm | he
  · exact benBounded_isRateLimited h now id kv hm
  · rw [he]
    exact isRateLimited_false_bound hlim

theorem provBounded_checkRateLimit {rl : List (String × RateDoc)}
    (h : provBounded rl) (ok : Bool) (now : Nat) (npi : String) :
    provBounded (checkRateLimit ok now rl npi).2 := by
  unfold checkRateLimit
  split
  · exact h
  · cases hg : assocGet rl npi with
    | none =>
      simp only [hg]
      intro kv hkv
      rcases mem_assocSet hkv with hm | he
      · exact h kv hm
      · rw [he]; exact (by decide : (1 : Nat) ≤ MAX_ATTEMPTS_PER_WINDOW)
    | some d =>
      simp only [hg]
      split
      · intro kv hkv
        rcases mem_assocSet hkv with hm | he
        · exact h kv hm
        · rw [he]; exact (by decide : (1 : Nat) ≤ MAX_ATTEMPTS_PER_WINDOW)
      · split
        · exact h
        · rename_i hlt
          intro kv hkv
          rcases mem_assocSet hkv with hm | he
          · exact h kv hm
          · rw [he]
            simp only [not_le] at hlt
            exact hlt

/-- A beneficiary attempt against a saturated, still-active window: the
run returns `RATE_LIMIT_EXCEEDED` and never queries the record store. -/
theorem benRateLimitedRun (store : String → StoreResult Beneficiary)
    (updateOk : Bool) (now : Nat) (m : RateLimitMap)
    (medicareId lastName : String) (ld : LimitData)
    (hmid : medicareId ≠ "") (hln : lastName ≠ "")
    (hfmt : validateMedicareId (sanitizeInput medicareId) = true)
    (hget : assocGet (cleanupRateLimits now m) (sanitizeInput medicareId) = some ld)
    (hcnt : MAX_ATTEMPTS ≤ ld.attempts)
    (hact : ¬ (ld.lastAttempt + lockoutMs < now)) :
    (authenticateUser store updateOk now m medicareId lastName).result.error
        = some .RATE_LIMIT_EXCEEDED ∧
    (authenticateUser store updateOk now m medicareId lastName).result.success = false ∧
    (authenticateUser store updateOk now m medicareId lastName).storeQueried = false := by
  have hrun : authenticateUser store updateOk now m medicareId lastName =
      { result := benFail .RATE_LIMIT_EXCEEDED
          "Too many failed attempts. Please try again in 15 minutes."
        rlMap := cleanupRateLimits now m, storeQueried := false, auditAppends := [] } := by
    unfold authenticateUser
    rw [if_neg (by push_neg; exact ⟨hmid, hln⟩)]
    simp only [isRateLimited, hget, hfmt, if_neg hact]
    simp [hcnt]
  rw [hrun]
  exact ⟨rfl, rfl, rfl⟩

/-- A provider attempt against a saturated, still-active `authRateLimits`
window (store reachable): HTTP 429 and no `providers` query. -/
theorem provRateLimitedRun (faOk auditOk : Bool)
    (pq : String → StoreResult ProviderRec) (pnow : Nat) (rand : String)
    (st : ProvState) (npiNumber : String) (d : RateDoc)
    (hnpi : npiNumber ≠ "")
    (hplen : (npiClean npiNumber).length = 10)
    (hpget : assocGet st.rateLimits (npiClean npiNumber) = some d)
    (hpcnt : MAX_ATTEMPTS_PER_WINDOW ≤ d.attempts)
    (hpact : ¬ ((RATE_LIMIT_WINDOW : Int) < (pnow : Int) - (d.windowStart : Int))) :
    (authenticateProvider true faOk auditOk pq pnow rand st npiNumber).resp.statusCode = 429 ∧
    (authenticateProvider true faOk auditOk pq pnow rand st npiNumber).resp.success = false ∧
    (authenticateProvider true faOk auditOk pq pnow rand st npiNumber).providerQueried = false := by
  have hrl : checkRateLimit true pnow st.rateLimits (npiClean npiNumber)
      = ((false, (RATE_LIMIT_WINDOW : Int) - ((pnow : Int) - (d.windowStart : Int))),
         st.rateLimits) := by
    unfold checkRateLimit
    rw [hpget]
    simp only [Bool.not_true, Bool.false_eq_true, if_false]
    rw [if_neg hpact, if_pos hpcnt]
  unfold authenticateProvider
  rw [if_neg hnpi]
  simp only [hplen, hrl]
  exact ⟨rfl, rfl, rfl⟩

/-- C2: for every identifier, once its window holds `MAX_ATTEMPTS = 5`
failed attempts and is still inside the 15-minute window, the next (6th)
attempt is rejected with the rate-limit error (`RATE_LIMIT_EXCEEDED` on the
beneficiary side, HTTP 429 on the provider side) and the credential store
is never consulted, in both limiter variants. -/
theorem C2_rate_limit (store : String → StoreResult Beneficiary)
    (updateOk : Bool) (now : Nat) (m : RateLimitMap)
    (medicareId lastName : String) (ld : LimitData)
    (hmid : medicareId ≠ "") (hln : lastName ≠ "")
    (hfmt : validateMedicareId (sanitizeInput medicareId) = true)
    (hget : assocGet (cleanupRateLimits now m) (sanitizeInput medicareId) = some ld)
    (hcnt : MAX_ATTEMPTS ≤ ld.attempts)
    (hact : ¬ (ld.lastAttempt + lockoutMs < now))
    (faOk auditOk : Bool) (pq : String → StoreResult ProviderRec)
    (pnow : Nat) (rand : String) (st : ProvState) (npiNumber : String) (d : RateDoc)
    (hnpi : npiNumber ≠ "")
    (hplen : (npiClean npiNumber).length = 10)
    (hpget : assocGet st.rateLimits (npiClean npiNumber) = some d)
    (hpcnt : MAX_ATTEMPTS_PER_WINDOW ≤ d.attempts)
    (hpact : ¬ ((RATE_LIMIT_WINDOW : Int) < (pnow : Int) - (d.windowStart : Int))) :
    ((authenticateUser store updateOk now m medicareId lastName).result.error
        = some .RATE_LIMIT_EXCEEDED ∧
     (authenticateUser store updateOk now m medicareId lastName).result.success = false ∧
     (authenticateUser store updateOk now m medicareId lastName).storeQueried = false) ∧
    ((authenticateProvider true faOk auditOk pq pnow rand st npiNumber).resp.statusCode = 429 ∧
     (authenticateProvider true faOk auditOk pq pnow rand st npiNumber).resp.success = false ∧
     (authenticateProvider true faOk auditOk pq pnow rand st npiNumber).providerQueried = false) :=
  ⟨benRateLimitedRun store updateOk now m medicareId lastName ld hmid hln hfmt hget hcnt hact,
   provRateLimitedRun faOk auditOk pq pnow rand st npiNumber d hnpi hplen hpget hpcnt hpact⟩

/-- Witness for C2 at concrete saturated windows on both sides. -/
theorem C2_witness :
    ((authenticateUser demoStore true 100 [("123-45-6789", ⟨5, 0⟩)]
        "123-45-6789" "Doe").result.error = some .RATE_LIMIT_EXCEEDED ∧
     (authenticateUser demoStore true 100 [("123-45-6789", ⟨5, 0⟩)]
        "123-45-6789" "Doe").result.success = false ∧
     (authenticateUser demoStore true 100 [("123-45-6789", ⟨5, 0⟩)]
        "123-45-6789" "Doe").storeQueried = false) ∧
    ((authenticateProvider true true true pqActive 1000 "ab" provSt5
        "1234567890").resp.statusCode = 429 ∧
     (authenticateProvider true true true pqActive 1000 "ab" provSt5
        "1234567890").resp.success = false ∧
     (authenticateProvider true true true pqActive 1000 "ab" provSt5
        "1234567890").providerQueried = false) :=
  C2_rate_limit demoStore true 100 [("123-45-6789", ⟨5, 0⟩)] "123-45-6789" "Doe"
    ⟨5, 0⟩ (by decide) (by decide) (by decide) (by decide) (by decide) (by decide)
    true true pqActive 1000 "ab" provSt5 "1234567890" ⟨5, 0, 100⟩
    (by decide) (by decide) (by decide) (by decide) (by decide)

/-- C10: a falsy `medicareId` or `lastName` makes `authenticateUser` return
`MISSING_CREDENTIALS` immediately: the whole outcome equals the literal
early-return — the rate-limit map is returned unchanged and the record
store is never queried (sanitization is pure and, in the source, is not
even reached). -/
theorem C10_missing_credentials (store : String → StoreResult Beneficiary)
    (updateOk : Bool) (now : Nat) (m : RateLimitMap)
    (medicareId lastName : String) (h : medicareId = "" ∨ lastName = "") :
    authenticateUser store updateOk now m medicareId lastName =
      { result := benFail .MISSING_CREDENTIALS "Medicare ID and last name are required"
        rlMap := m, storeQueried := false, auditAppends := [] } := by
  unfold authenticateUser
  rw [if_pos h]

/-- Witness for C10 with a missing Medicare ID and a non-empty map. -/
theorem C10_witness :
    authenticateUser demoStore true 0 [("123-45-6789", ⟨2, 0⟩)] "" "Doe" =
      { result := benFail .MISSING_CREDENTIALS "Medicare ID and last name are required"
        rlMap := [("123-45-6789", ⟨2, 0⟩)], storeQueried := false, auditAppends := [] } :=
  C10_missing_credentials demoStore true 0 [("123-45-6789", ⟨2, 0⟩)] "" "Doe"
    (Or.inl rfl)

/-- C7 fails on the provider issuer: the provider session token is the
SHA-256 digest of `npi-timestamp-randomBytes`; no decoder can recover the
identifier and issuance time from it, because distinct identifier/time
pairs already collide at the payload level (`"1-2"`/3 and `"1"`/2 hash the
identical string `"1-2-3-x"`). -/
theorem C7_counterexample :
    ¬ ∃ decode : String → String × Nat,
      ∀ (npiNumber : String) (timestamp : Nat) (randomBytes : String),
        decode (providerGenerateSessionToken npiNumber timestamp randomBytes)
          = (npiNumber, timestamp) := by
  rintro ⟨decode, hdec⟩
  have h1 := hdec "1-2" 3 "x"
  have h2 := hdec "1" 2 "3-x"
  have heq : providerGenerateSessionToken "1-2" 3 "x"
      = providerGenerateSessionToken "1" 2 "3-x" := by
    unfold providerGenerateSessionToken
    exact congrArg sha256hex (by decide)
  rw [heq, h2] at h1
  exact absurd h1 (by decide)

/-- C7 as amended: the beneficiary token round-trips — its decoded payload
carries the identifier and `expiresAt = issuedAt + 1 hour` — while the
provider issuer only emits the SHA-256 digest of its payload, which binds
no expiry and is not decodable (distinct identifier/issuance pairs can
yield the very same token). -/
theorem C7_amended :
    (∀ (b : Beneficiary) (now : Nat),
      (generateSessionToken b now).medicareId = b.medicareId ∧
      (generateSessionToken b now).timestamp = now ∧
      (generateSessionToken b now).expiresAt
        = (generateSessionToken b now).timestamp + 60 * 60 * 1000) ∧
    (∀ (npiNumber : String) (timestamp : Nat) (randomBytes : String),
      providerGenerateSessionToken npiNumber timestamp randomBytes
        = sha256hex (providerTokenPayload npiNumber timestamp randomBytes)) ∧
    providerGenerateSessionToken "1-2" 3 "x"
      = providerGenerateSessionToken "1" 2 "3-x" := by
  refine ⟨fun b now => ⟨rfl, rfl, rfl⟩, fun _ _ _ => rfl, ?_⟩
  unfold providerGenerateSessionToken
  exact congrArg sha256hex (by decide)

/-- C1 fails on the beneficiary entry point: a complete, successful
`authenticateUser` attempt appends zero audit records — the beneficiary
flow only writes `console` diagnostics and touches no audit collection —
not the exactly one the claim requires. -/
theorem C1_counterexample :
    (authenticateUser demoStore true 0 [] "123-45-6789" "Doe").result.success = true ∧
    (authenticateUser demoStore true 0 [] "123-45-6789" "Doe").auditAppends = [] := by
  exact ⟨by decide, by decide⟩

/-- C1 as amended: the beneficiary entry point appends no audit record on
any attempt, while the provider entry point appends exactly one record per
attempt whose argument passes the initial presence/type check (when the
audit sink is up); an empty or non-string NPI also returns before any
logging. -/
theorem C1_amended :
    (∀ (store : String → StoreResult Beneficiary) (updateOk : Bool) (now : Nat)
        (m : RateLimitMap) (medicareId lastName : String),
      (authenticateUser store updateOk now m medicareId lastName).auditAppends = []) ∧
    (∀ (rlOk faOk : Bool) (pq : String → StoreResult ProviderRec) (now : Nat)
        (rand : String) (st : ProvState) (npiNumber : String),
      npiNumber ≠ "" →
      (authenticateProvider rlOk faOk true pq now rand st npiNumber).st.auditLog.length
        = st.auditLog.length + 1) ∧
    (∀ (rlOk faOk auditOk : Bool) (pq : String → StoreResult ProviderRec)
        (now : Nat) (rand : String) (st : ProvState),
      (authenticateProvider rlOk faOk auditOk pq now rand st "").st.auditLog
        = st.auditLog) := by
  refine ⟨?_, ?_, ?_⟩
  · intro store updateOk now m medicareId lastName
    simp only [authenticateUser]
    repeat first | rfl | split
  · intro rlOk faOk pq now rand st npiNumber h
    simp only [authenticateProvider]
    rw [if_neg h]
    split
    · simp [logAuthAttempt]
    · split
      · simp [logAuthAttempt]
      · split
        · simp [logAuthAttempt]
        · simp [logAuthAttempt]
        · split <;> simp [logAuthAttempt]
  · intro rlOk faOk auditOk pq now rand st
    rfl

/-- Witness for C1 as amended: a rejected beneficiary attempt appends
nothing; a successful provider attempt appends exactly one record. -/
theorem C1_witness :
    (authenticateUser demoStore true 0 [] "987-65-4321" "Smith").auditAppends = [] ∧
    (authenticateProvider true true true pqActive 0 "ab" emptyProvState
        "1234567890").st.auditLog.length = emptyProvState.auditLog.length + 1 ∧
    (authenticateProvider true true true pqActive 0 "ab" emptyProvState
        "").st.auditLog = emptyProvState.auditLog :=
  ⟨C1_amended.1 demoStore true 0 [] "987-65-4321" "Smith",
   C1_amended.2.1 true true pqActive 0 "ab" emptyProvState "1234567890" (by decide),
   C1_amended.2.2 true true true pqActive 0 "ab" emptyProvState⟩

/-- C4 fails on the in-process limiter: five failures at 0, 1, 2, 3 and
840000 ms open the window at `windowStart = 0` with `attemptCount = 5`;
the attempt at 960000 ms comes more than 15 minutes after the window's
start, yet it is still rate-limited, because this variant measures expiry
from `lastAttempt` (840000), not from the window's start. -/
theorem C4_counterexample :
    assocGet benWindowSpread "123-45-6789" = some ⟨5, 840000⟩ ∧
    lockoutMs < 960000 ∧
    (isRateLimited 960000 benWindowSpread "123-45-6789").1 = true := by
  decide

/-- C4 as amended: the store-backed limiter measures expiry from
`windowStart` — a later attempt is allowed and resets the count to 1 even
at `attemptCount = MAX` — while the in-process limiter measures expiry
from `lastAttempt`: an attempt more than 15 minutes after the *last*
attempt is allowed and deletes the entry. -/
theorem C4_amended :
    (∀ (now : Nat) (rl : List (String × RateDoc)) (npiNumber : String) (d : RateDoc),
      assocGet rl npiNumber = some d →
      (RATE_LIMIT_WINDOW : Int) < (now : Int) - (d.windowStart : Int) →
      checkRateLimit true now rl npiNumber = ((true, 0), assocSet rl npiNumber ⟨1, now, now⟩)) ∧
    (∀ (now : Nat) (m : RateLimitMap) (id : String) (ld : LimitData),
      keysNodup m → assocGet m id = some ld →
      ld.lastAttempt + lockoutMs < now →
      (isRateLimited now m id).1 = false ∧
      assocGet (isRateLimited now m id).2 id = none) := by
  constructor
  · intro now rl npiNumber d hget hstale
    simp only [checkRateLimit, hget, if_pos hstale]
    rfl
  · intro now m id ld hnd hget hstale
    have hnone := assocGet_cleanup_stale hnd hget hstale
    simp [isRateLimited, hnone]

/-- Witness for C4 as amended, at saturated windows 15 minutes in the
past on both sides. -/
theorem C4_witness :
    checkRateLimit true 1000001 [("1234567890", ⟨5, 0, 0⟩)] "1234567890"
      = ((true, 0), assocSet [("1234567890", ⟨5, 0, 0⟩)] "1234567890" ⟨1, 1000001, 1000001⟩) ∧
    (isRateLimited 1000001 [("123-45-6789", ⟨5, 0⟩)] "123-45-6789").1 = false ∧
    assocGet (isRateLimited 1000001 [("123-45-6789", ⟨5, 0⟩)] "123-45-6789").2
      "123-45-6789" = none :=
  ⟨C4_amended.1 1000001 [("1234567890", ⟨5, 0, 0⟩)] "1234567890" ⟨5, 0, 0⟩
      (by decide) (by decide),
   C4_amended.2 1000001 [("123-45-6789", ⟨5, 0⟩)] "123-45-6789" ⟨5, 0⟩
      (by decide) (by decide) (by decide)⟩

/-- C5 fails on the provider entry point: an unknown NPI is answered with
HTTP 404 "Provider not found", while an existing but inactive provider
gets HTTP 403 — the two rejections are distinguishable, so the caller
learns whether the identifier exists (and neither is the generic
`INVALID_CREDENTIALS`). -/
theorem C5_counterexample :
    (authenticateProvider true true true pqNotFound 0 "ab" emptyProvState
        "1234567890").resp.statusCode = 404 ∧
    (authenticateProvider true true true pqSuspended 0 "ab" emptyProvState
        "1234567890").resp.statusCode = 403 ∧
    (authenticateProvider true true true pqNotFound 0 "ab" emptyProvState
        "1234567890").resp
      ≠ (authenticateProvider true true true pqSuspended 0 "ab" emptyProvState
        "1234567890").resp := by
  refine ⟨by decide, by decide, by decide⟩

/-- C3 fails on the store-backed limiter: a fully successful provider
authentication (`success = true`) deletes only the `authFailedAttempts`
counter; the `authRateLimits` window — the state the rate-limit decision
actually reads — is not deleted or reset to 0, but keeps counting:
after the run it still holds the window (with `attempts` incremented to 4
by the check itself). -/
theorem C3_counterexample :
    (authenticateProvider true true true pqActive 1000 "ab" provSt3
        "1234567890").resp.success = true ∧
    (authenticateProvider true true true pqActive 1000 "ab" provSt3
        "1234567890").st.failedAttempts = [] ∧
    (authenticateProvider true true true pqActive 1000 "ab" provSt3
        "1234567890").st.rateLimits = [("1234567890", ⟨4, 0, 1000⟩)] := by
  refine ⟨by decide, by decide, by decide⟩

/-- C3 as amended: on success the in-process variant deletes the
identifier's window outright, while the store-backed variant deletes only
the separate `authFailedAttempts` counter and leaves the `authRateLimits`
window in place — incremented by the check — until it expires. -/
theorem C3_amended :
    (∀ (now : Nat) (m : RateLimitMap) (id : String),
      recordAttempt now m id true = assocDelete m id ∧
      assocGet (recordAttempt now m id true) id = none) ∧
    (∀ (faOk auditOk : Bool) (pq : String → StoreResult ProviderRec) (now : Nat)
        (rand : String) (st : ProvState) (npiNumber : String) (d : RateDoc)
        (p : ProviderRec),
      npiNumber ≠ "" →
      (npiClean npiNumber).length = 10 →
      assocGet st.rateLimits (npiClean npiNumber) = some d →
      ¬ ((RATE_LIMIT_WINDOW : Int) < (now : Int) - (d.windowStart : Int)) →
      d.attempts < MAX_ATTEMPTS_PER_WINDOW →
      pq (npiClean npiNumber) = .found p →
      p.status = "Active" →
      (authenticateProvider true faOk auditOk pq now rand st npiNumber).resp.success = true ∧
      (authenticateProvider true faOk auditOk pq now rand st npiNumber).st.failedAttempts
        = resetFailedAttempts faOk st.failedAttempts (npiClean npiNumber) ∧
      (authenticateProvider true faOk auditOk pq now rand st npiNumber).st.rateLimits
        = assocSet st.rateLimits (npiClean npiNumber) ⟨d.attempts + 1, d.windowStart, now⟩ ∧
      assocGet (authenticateProvider true faOk auditOk pq now rand st npiNumber).st.rateLimits
        (npiClean npiNumber) = some ⟨d.attempts + 1, d.windowStart, now⟩) := by
  constructor
  · intro now m id
    exact ⟨rfl, assocGet_assocDelete m id⟩
  · intro faOk auditOk pq now rand st npiNumber d p h1 h2 h3 h4 h5 h6 h7
    have hrl : checkRateLimit true now st.rateLimits (npiClean npiNumber)
        = ((true, 0), assocSet st.rateLimits (npiClean npiNumber)
            ⟨d.attempts + 1, d.windowStart, now⟩) := by
      have hattempts : ¬ (MAX_ATTEMPTS_PER_WINDOW ≤ d.attempts) := by omega
      simp only [checkRateLimit, h3, if_neg h4]
      rw [if_neg hattempts]
      rfl
    have hns : ¬ ((npiClean npiNumber).length ≠ 10) := by simp [h2]
    have hnact : ¬ (p.status ≠ "Active") := by simp [h7]
    simp only [authenticateProvider, if_neg h1, if_neg hns, hrl, h6, if_neg hnact]
    exact ⟨rfl, rfl, rfl, assocGet_assocSet _ _ _⟩

/-- Witness for C3 as amended: on both sides, a concrete successful
attempt — the in-process window is deleted, the store-backed window
survives with its incremented count. -/
theorem C3_witness :
    (recordAttempt 7 [("123-45-6789", ⟨3, 0⟩)] "123-45-6789" true
        = assocDelete [("123-45-6789", ⟨3, 0⟩)] "123-45-6789" ∧
      assocGet (recordAttempt 7 [("123-45-6789", ⟨3, 0⟩)] "123-45-6789" true)
        "123-45-6789" = none) ∧
    ((authenticateProvider true true true pqActive 1000 "ab" provSt3
        "1234567890").resp.success = true ∧
      (authenticateProvider true true true pqActive 1000 "ab" provSt3
        "1234567890").st.failedAttempts
        = resetFailedAttempts true provSt3.failedAttempts (npiClean "1234567890") ∧
      (authenticateProvider true true true pqActive 1000 "ab" provSt3
        "1234567890").st.rateLimits
        = assocSet provSt3.rateLimits (npiClean "1234567890") ⟨4, 0, 1000⟩ ∧
      assocGet (authenticateProvider true true true pqActive 1000 "ab" provSt3
        "1234567890").st.rateLimits (npiClean "1234567890") = some ⟨4, 0, 1000⟩) :=
  ⟨C3_amended.1 7 [("123-45-6789", ⟨3, 0⟩)] "123-45-6789",
   C3_amended.2 true true pqActive 1000 "ab" provSt3 "1234567890" ⟨3, 0, 0⟩
     activeProvider (by decide) (by decide) (by decide) (by decide) (by decide)
     rfl rfl⟩

/-- C5 as amended: the beneficiary flow returns the *identical* outcome —
result, limiter state, everything — for an unknown Medicare ID and for an
existing one with a wrong last name (the generic `INVALID_CREDENTIALS`),
so those two runs are indistinguishable; the provider flow, by contrast,
answers an unknown NPI with 404 and an existing-but-inactive one with
403. -/
theorem C5_amended (store1 store2 : String → StoreResult Beneficiary)
    (u1 u2 : Bool) (now : Nat) (m : RateLimitMap)
    (medicareId lastName : String) (b : Beneficiary)
    (hmid : medicareId ≠ "") (hln : lastName ≠ "")
    (hfmt : validateMedicareId (sanitizeInput medicareId) = true)
    (hlim : (isRateLimited now m (sanitizeInput medicareId)).1 = false)
    (h1 : store1 (sanitizeInput medicareId) = .notFound)
    (h2 : store2 (sanitizeInput medicareId) = .found b)
    (hname : jsToLower b.lastName ≠ jsToLower (sanitizeInput lastName))
    (rlOk faOk auditOk : Bool) (pq1 pq2 : String → StoreResult ProviderRec)
    (pnow : Nat) (rand : String) (st : ProvState) (npiNumber : String)
    (p : ProviderRec)
    (hnpi : npiNumber ≠ "") (hplen : (npiClean npiNumber).length = 10)
    (hallow : (checkRateLimit rlOk pnow st.rateLimits (npiClean npiNumber)).1.1 = true)
    (hq1 : pq1 (npiClean npiNumber) = .notFound)
    (hq2 : pq2 (npiClean npiNumber) = .found p)
    (hst : p.status ≠ "Active") :
    (authenticateUser store1 u1 now m medicareId lastName
        = authenticateUser store2 u2 now m medicareId lastName ∧
      (authenticateUser store1 u1 now m medicareId lastName).result.error
        = some .INVALID_CREDENTIALS) ∧
    ((authenticateProvider rlOk faOk auditOk pq1 pnow rand st npiNumber).resp.statusCode
        = 404 ∧
      (authenticateProvider rlOk faOk auditOk pq2 pnow rand st npiNumber).resp.statusCode
        = 403) := by
  have hv : ¬ ((medicareId = "" ∨ lastName = "")) := by push_neg; exact ⟨hmid, hln⟩
  have hb1 : authenticateUser store1 u1 now m medicareId lastName =
      { result := benFail .INVALID_CREDENTIALS "Invalid Medicare ID or last name"
        rlMap := recordAttempt now (isRateLimited now m (sanitizeInput medicareId)).2
          (sanitizeInput medicareId) false
        storeQueried := true, auditAppends := [] } := by
    simp only [authenticateUser, if_neg hv, hfmt, hlim, h1]
    rfl
  have hb2 : authenticateUser store2 u2 now m medicareId lastName =
      { result := benFail .INVALID_CREDENTIALS "Invalid Medicare ID or last name"
        rlMap := recordAttempt now (isRateLimited now m (sanitizeInput medicareId)).2
          (sanitizeInput medicareId) false
        storeQueried := true, auditAppends := [] } := by
    simp only [authenticateUser, if_neg hv, hfmt, hlim, h2, if_pos hname]
    rfl
  have hns : ¬ ((npiClean npiNumber).length ≠ 10) := by simp [hplen]
  refine ⟨⟨by rw [hb1, hb2], by rw [hb1]; rfl⟩, ?_, ?_⟩
  · simp only [authenticateProvider, if_neg hnpi, if_neg hns, hallow, hq1]
    rfl
  · simp only [authenticateProvider, if_neg hnpi, if_neg hns, hallow, hq2, if_pos hst]
    rfl

/-- Witness for C5 as amended: demo stores on both sides. -/
theorem C5_witness :
    (authenticateUser benStoreEmpty true 0 [] "123-45-6789" "Smith"
        = authenticateUser demoStore false 0 [] "123-45-6789" "Smith" ∧
      (authenticateUser benStoreEmpty true 0 [] "123-45-6789" "Smith").result.error
        = some .INVALID_CREDENTIALS) ∧
    ((authenticateProvider true true true pqNotFound 0 "ab" emptyProvState
        "1234567890").resp.statusCode = 404 ∧
      (authenticateProvider true true true pqSuspended 0 "ab" emptyProvState
        "1234567890").resp.statusCode = 403) :=
  C5_amended benStoreEmpty demoStore true false 0 [] "123-45-6789" "Smith"
    demoBeneficiary (by decide) (by decide) (by decide) (by decide) rfl rfl
    (by decide) true true true pqNotFound pqSuspended 0 "ab" emptyProvState
    "1234567890" suspendedProvider (by decide) (by decide) (by decide) rfl rfl
    (by decide)

/-- C6: infrastructure failures are fail-open for the limiter and
fail-closed for the verifier.  An unreachable limiter store makes
`checkRateLimit` allow the attempt with no state change; an unreachable
record store during verification yields a denial (`INTERNAL_ERROR` /
HTTP 500, `success = false`) on both entry points — never a successful
authentication. -/
theorem C6_fail_policy (store : String → StoreResult Beneficiary)
    (updateOk : Bool) (now : Nat) (m : RateLimitMap)
    (medicareId lastName : String)
    (hmid : medicareId ≠ "") (hln : lastName ≠ "")
    (hfmt : validateMedicareId (sanitizeInput medicareId) = true)
    (hlim : (isRateLimited now m (sanitizeInput medicareId)).1 = false)
    (herr : store (sanitizeInput medicareId) = .error)
    (rlOk faOk auditOk : Bool) (pq : String → StoreResult ProviderRec)
    (pnow : Nat) (rand : String) (st : ProvState) (npiNumber : String)
    (hnpi : npiNumber ≠ "") (hplen : (npiClean npiNumber).length = 10)
    (hallow : (checkRateLimit rlOk pnow st.rateLimits (npiClean npiNumber)).1.1 = true)
    (hperr : pq (npiClean npiNumber) = .error) :
    (∀ (now' : Nat) (rl : List (String × RateDoc)) (npi' : String),
      checkRateLimit false now' rl npi' = ((true, 0), rl)) ∧
    ((authenticateUser store updateOk now m medicareId lastName).result.error
        = some .INTERNAL_ERROR ∧
      (authenticateUser store updateOk now m medicareId lastName).result.success = false) ∧
    ((authenticateProvider rlOk faOk auditOk pq pnow rand st npiNumber).resp.statusCode
        = 500 ∧
      (authenticateProvider rlOk faOk auditOk pq pnow rand st npiNumber).resp.success
        = false) := by
  have hv : ¬ ((medicareId = "" ∨ lastName = "")) := by push_neg; exact ⟨hmid, hln⟩
  have hns : ¬ ((npiClean npiNumber).length ≠ 10) := by simp [hplen]
  refine ⟨fun now' rl npi' => rfl, ?_, ?_⟩
  · simp only [authenticateUser, if_neg hv, hfmt, hlim, herr]
    exact ⟨rfl, rfl⟩
  · simp only [authenticateProvider, if_neg hnpi, if_neg hns, hallow, hperr]
    exact ⟨rfl, rfl⟩

/-- Witness for C6: both stores down at concrete inputs. -/
theorem C6_witness :
    (checkRateLimit false 5 [("1234567890", ⟨9, 0, 0⟩)] "1234567890"
        = ((true, 0), [("1234567890", ⟨9, 0, 0⟩)])) ∧
    ((authenticateUser benStoreDown true 0 [] "123-45-6789" "Doe").result.error
        = some .INTERNAL_ERROR ∧
      (authenticateUser benStoreDown true 0 [] "123-45-6789" "Doe").result.success
        = false) ∧
    ((authenticateProvider true true true pqDown 0 "ab" emptyProvState
        "1234567890").resp.statusCode = 500 ∧
      (authenticateProvider true true true pqDown 0 "ab" emptyProvState
        "1234567890").resp.success = false) := by
  have h := C6_fail_policy benStoreDown true 0 [] "123-45-6789" "Doe"
    (by decide) (by decide) (by decide) (by decide) rfl
    true true true pqDown 0 "ab" emptyProvState "1234567890"
    (by decide) (by decide) (by decide) rfl
  exact ⟨h.1 5 [("1234567890", ⟨9, 0, 0⟩)] "1234567890", h.2.1, h.2.2⟩

/-- C8 fails on the code: with a valid, verified beneficiary credential
but a failing `isAuthenticated`/`lastLoginDate` update, the run returns
`INTERNAL_ERROR` with `success = false` — the awaited update's failure
turns the verified attempt into a failed authentication instead of being
fire-and-forget. -/
theorem C8_counterexample :
    (authenticateUser demoStore false 0 [] "123-45-6789" "Doe").result.success = false ∧
    (authenticateUser demoStore false 0 [] "123-45-6789" "Doe").result.error
      = some .INTERNAL_ERROR := by
  exact ⟨by decide, by decide⟩

/-- C8 as amended: the mark-last-authenticated update is awaited inside
the flow's `try`; when it raises after successful verification the
attempt returns `INTERNAL_ERROR` (`success = false`) instead of success.
The limiter reset has already happened by then, so the identifier's
window is nevertheless gone. -/
theorem C8_amended (store : String → StoreResult Beneficiary) (now : Nat)
    (m : RateLimitMap) (medicareId lastName : String) (b : Beneficiary)
    (hmid : medicareId ≠ "") (hln : lastName ≠ "")
    (hfmt : validateMedicareId (sanitizeInput medicareId) = true)
    (hlim : (isRateLimited now m (sanitizeInput medicareId)).1 = false)
    (hfound : store (sanitizeInput medicareId) = .found b)
    (hname : jsToLower b.lastName = jsToLower (sanitizeInput lastName)) :
    (authenticateUser store false now m medicareId lastName).result.error
      = some .INTERNAL_ERROR ∧
    (authenticateUser store false now m medicareId lastName).result.success = false ∧
    (authenticateUser store false now m medicareId lastName).rlMap
      = assocDelete (isRateLimited now m (sanitizeInput medicareId)).2
          (sanitizeInput medicareId) := by
  have hv : ¬ ((medicareId = "" ∨ lastName = "")) := by push_neg; exact ⟨hmid, hln⟩
  have hnn : ¬ (jsToLower b.lastName ≠ jsToLower (sanitizeInput lastName)) := by
    simp [hname]
  simp only [authenticateUser, if_neg hv, hfmt, hlim, hfound, if_neg hnn]
  exact ⟨rfl, rfl, rfl⟩

/-- Witness for C8 as amended at the demo store. -/
theorem C8_witness :
    (authenticateUser demoStore false 7 [("123-45-6789", ⟨2, 0⟩)]
        "123-45-6789" "Doe").result.error = some .INTERNAL_ERROR ∧
    (authenticateUser demoStore false 7 [("123-45-6789", ⟨2, 0⟩)]
        "123-45-6789" "Doe").result.success = false ∧
    (authenticateUser demoStore false 7 [("123-45-6789", ⟨2, 0⟩)]
        "123-45-6789" "Doe").rlMap
      = assocDelete (isRateLimited 7 [("123-45-6789", ⟨2, 0⟩)]
          (sanitizeInput "123-45-6789")).2 (sanitizeInput "123-45-6789") :=
  C8_amended demoStore 7 [("123-45-6789", ⟨2, 0⟩)] "123-45-6789" "Doe"
    demoBeneficiary (by decide) (by decide) (by decide) (by decide) rfl (by decide)

/-- C9: in both variants, one authentication step preserves the invariant
that no identifier's window counts past the maximum of 5 (so, starting from
the empty state, `attemptCount` never exceeds `MAX_ATTEMPTS` while a window
is open); and once an identifier's active window sits at the maximum, the
attempt is rejected with no record-store lookup (`storeQueried` /
`providerQueried` stay false). -/
theorem C9_invariant (store : String → StoreResult Beneficiary)
    (updateOk : Bool) (now : Nat) (m : RateLimitMap)
    (medicareId lastName : String) (ld : LimitData)
    (hmid : medicareId ≠ "") (hln : lastName ≠ "")
    (hfmt : validateMedicareId (sanitizeInput medicareId) = true)
    (hget : assocGet (cleanupRateLimits now m) (sanitizeInput medicareId) = some ld)
    (hcnt : MAX_ATTEMPTS ≤ ld.attempts)
    (hact : ¬ (ld.lastAttempt + lockoutMs < now))
    (faOk auditOk : Bool) (pq : String → StoreResult ProviderRec)
    (pnow : Nat) (rand : String) (st : ProvState) (npiNumber : String) (d : RateDoc)
    (hnpi : npiNumber ≠ "")
    (hplen : (npiClean npiNumber).length = 10)
    (hpget : assocGet st.rateLimits (npiClean npiNumber) = some d)
    (hpcnt : MAX_ATTEMPTS_PER_WINDOW ≤ d.attempts)
    (hpact : ¬ ((RATE_LIMIT_WINDOW : Int) < (pnow : Int) - (d.windowStart : Int))) :
    (∀ (store' : String → StoreResult Beneficiary) (u' : Bool) (now' : Nat)
        (m' : RateLimitMap) (mid' ln' : String),
      benBounded m' →
      benBounded (authenticateUser store' u' now' m' mid' ln').rlMap) ∧
    (∀ (rlOk' faOk' auditOk' : Bool) (pq' : String → StoreResult ProviderRec)
        (now' : Nat) (rand' : String) (st' : ProvState) (npi' : String),
      provBounded st'.rateLimits →
      provBounded (authenticateProvider rlOk' faOk' auditOk' pq' now' rand' st' npi').st.rateLimits) ∧
    (authenticateUser store updateOk now m medicareId lastName).storeQueried = false ∧
    (authenticateProvider true faOk auditOk pq pnow rand st npiNumber).providerQueried
      = false := by
  refine ⟨?_, ?_, ?_, ?_⟩
  · intro store' u' now' m' mid' ln' hB
    simp only [authenticateUser]
    split
    · exact hB
    · split
      · exact hB
      · split
        · exact benBounded_isRateLimited hB now' (sanitizeInput mid')
        · rename_i hlim
          rw [Bool.not_eq_true] at hlim
          split
          · exact benBounded_isRateLimited hB now' (sanitizeInput mid')
          · exact benBounded_record_false hB now' (sanitizeInput mid') hlim
          · split
            · exact benBounded_record_false hB now' (sanitizeInput mid') hlim
            · split
              · exact benBounded_filter (benBounded_isRateLimited hB now' _) _
              · exact benBounded_filter (benBounded_isRateLimited hB now' _) _
  · intro rlOk' faOk' auditOk' pq' now' rand' st' npi' hB
    simp only [authenticateProvider]
    split
    · exact hB
    · split
      · exact hB
      · split
        · exact provBounded_checkRateLimit hB rlOk' now' (npiClean npi')
        · split
          · exact provBounded_checkRateLimit hB rlOk' now' (npiClean npi')
          · exact provBounded_checkRateLimit hB rlOk' now' (npiClean npi')
          · split <;> exact provBounded_checkRateLimit hB rlOk' now' (npiClean npi')
  · exact (benRateLimitedRun store updateOk now m medicareId lastName ld
      hmid hln hfmt hget hcnt hact).2.2
  · exact (provRateLimitedRun faOk auditOk pq pnow rand st npiNumber d
      hnpi hplen hpget hpcnt hpact).2.2

/-- Witness for C9: the invariant applied to concrete states, and
saturated windows on both sides never reaching the stores. -/
theorem C9_witness :
    benBounded (authenticateUser demoStore true 0
      [("123-45-6789", ⟨4, 0⟩)] "123-45-6789" "Wrong").rlMap ∧
    provBounded (authenticateProvider true true true pqActive 0 "ab"
      provSt3 "1234567890").st.rateLimits ∧
    (authenticateUser demoStore true 100 [("123-45-6789", ⟨5, 0⟩)]
      "123-45-6789" "Doe").storeQueried = false ∧
    (authenticateProvider true true true pqActive 1000 "ab" provSt5
      "1234567890").providerQueried = false := by
  have h := C9_invariant demoStore true 100 [("123-45-6789", ⟨5, 0⟩)]
    "123-45-6789" "Doe" ⟨5, 0⟩ (by decide) (by decide) (by decide) (by decide)
    (by decide) (by decide) true true pqActive 1000 "ab" provSt5 "1234567890"
    ⟨5, 0, 100⟩ (by decide) (by decide) (by decide) (by decide) (by decide)
  exact ⟨h.1 demoStore true 0 [("123-45-6789", ⟨4, 0⟩)] "123-45-6789" "Wrong"
      (by decide),
    h.2.1 true true true pqActive 0 "ab" provSt3 "1234567890" (by decide),
    h.2.2.1, h.2.2.2⟩

end CmsAuth
